import Mathlib

/-!
Verification of the remote seedbox connection and streaming core of the
`resonance` repository, as a shallow embedding in Lean.

Embedded source files:
* `src/server/src/routes/stream.ts` (`streamLocal`, `streamRemote`): the
  range-aware streaming route, including its JavaScript string/number
  semantics (`parseInt` returning `NaN`, truthiness of `parts[1]`,
  `String(...)` rendering).
* `src/server/src/services/scanQueue.ts` (`SshConnectionManager`): pool /
  single-flight state machine (`getSftp`, `createConnection` settlement,
  `removeConnection`), and the `ssh2` `connect` options it builds.
* `src/server/src/routes/remoteHosts.ts` (`testConnectionHandler`): the
  TOFU fingerprint decision logic.
* `src/server/src/services/directoryWalker.ts` (`walkRemoteLibrary`) and
  `src/server/src/services/formatDetector.ts` (`isAudioFile`, `isCoverArt`).

JavaScript semantics are modelled explicitly: numbers appearing in the
range logic are `Option Int` with `none` playing the role of `NaN`
(all `NaN` comparisons are false, arithmetic propagates `NaN`, and
`String(NaN) = "NaN"`). Node library functions used by the code
(`path.posix.join`/`resolve`/`relative` on absolute inputs,
`String.prototype.split`/`replace`, `createReadStream` with inclusive
`start`/`end`) are modelled from their documented behaviour.
-/

-- ═══════════════════════════════════════════════════════════════════
-- JavaScript string primitives
-- ═══════════════════════════════════════════════════════════════════

/-- Split a character list on a separator character; mirrors
`String.prototype.split` with a one-character separator
(`"".split(c) = [""]`, separators at the ends produce empty pieces). -/
def splitChar (sep : Char) : List Char → List (List Char)
  | [] => [[]]
  | c :: rest =>
      let r := splitChar sep rest
      if c = sep then [] :: r
      else
        match r with
        | h :: t => (c :: h) :: t
        | [] => [[c]]

/-- `String.prototype.split` with a one-character separator, on `String`. -/
def jsSplit (s : String) (sep : Char) : List String :=
  (splitChar sep s.data).map (fun l => String.mk l)

/-- Remove the first occurrence of `pat` from a character list; mirrors
`String.prototype.replace(/pat/, '')` with a non-global literal regex
(only the FIRST occurrence is removed; no match leaves the string intact). -/
def removeFirstOcc (pat : List Char) : List Char → List Char
  | [] => []
  | c :: rest =>
      if pat.isPrefixOf (c :: rest) then (c :: rest).drop pat.length
      else c :: removeFirstOcc pat rest

/-- `range.replace(/bytes=/, '')` from the streaming route. -/
def stripBytesMarker (r : String) : String :=
  String.mk (removeFirstOcc "bytes=".data r.data)

/-- ASCII lower-casing, as `String.prototype.toLowerCase` behaves on the
ASCII file names and extensions this code compares. -/
def lowerStr (s : String) : String :=
  String.mk (s.data.map Char.toLower)

/-- `String.prototype.startsWith`. -/
def strStartsWith (s pre : String) : Bool :=
  pre.data.isPrefixOf s.data

-- ═══════════════════════════════════════════════════════════════════
-- POSIX path model (path.posix.join / resolve / relative)
-- ═══════════════════════════════════════════════════════════════════

/-- Path segments of a POSIX path: split on `/`, dropping empty segments
and `.` segments. -/
def pathSegs (p : String) : List String :=
  (jsSplit p '/').filter (fun s => s ≠ "" && s ≠ ".")

/-- Normalisation stack: `..` pops a preceding real segment; at the root of
an absolute path `..` is dropped; in a relative path leading `..` segments
are kept. `acc` is the processed prefix, reversed. -/
def normSegsAux (absolute : Bool) : List String → List String → List String
  | acc, [] => acc.reverse
  | acc, seg :: rest =>
      if seg = ".." then
        match acc with
        | top :: accRest =>
            if top = ".." then normSegsAux absolute (".." :: acc) rest
            else normSegsAux absolute accRest rest
        | [] =>
            if absolute then normSegsAux absolute [] rest
            else normSegsAux absolute [".."] rest
      else normSegsAux absolute (seg :: acc) rest

/-- Rebuild a path string from normalised segments (Node normalisation
renders the empty relative path as `.` and the empty absolute path as `/`). -/
def segsToPath (absolute : Bool) (segs : List String) : String :=
  let body := String.intercalate "/" segs
  if absolute then "/" ++ body
  else if body = "" then "." else body

/-- `path.posix.normalize`. -/
def posixNormalize (p : String) : String :=
  let absolute := strStartsWith p "/"
  segsToPath absolute (normSegsAux absolute [] (pathSegs p))

/-- `path.posix.join(a, b)`: concatenate with `/` and normalise. -/
def posixJoin (a b : String) : String :=
  if a = "" then posixNormalize b
  else if b = "" then posixNormalize a
  else posixNormalize (a ++ "/" ++ b)

/-- `path.resolve(p)` (and `path.posix.resolve`) for an ABSOLUTE `p`:
plain normalisation with the trailing slash dropped. The album base
directories the route resolves are absolute paths. -/
def posixResolve (p : String) : String :=
  posixNormalize p

/-- Drop the common prefix of two segment lists. -/
def dropCommonPrefixSegs : List String → List String → (List String × List String)
  | a :: as_, b :: bs => if a = b then dropCommonPrefixSegs as_ bs else (a :: as_, b :: bs)
  | as_, bs => (as_, bs)

/-- `path.posix.relative(fromP, toP)` for absolute `fromP`, `toP`:
strip the common segment prefix, then one `..` per remaining segment of
`fromP` followed by the remaining segments of `toP`. -/
def posixRelative (fromP toP : String) : String :=
  let fs := normSegsAux true [] (pathSegs fromP)
  let ts := normSegsAux true [] (pathSegs toP)
  let (fRest, tRest) := dropCommonPrefixSegs fs ts
  String.intercalate "/" (List.replicate fRest.length ".." ++ tRest)

-- ═══════════════════════════════════════════════════════════════════
-- JavaScript number model for the range logic ('none' = NaN)
-- ═══════════════════════════════════════════════════════════════════

/-- A JavaScript number as it appears in the range logic: an integer, or
`NaN` (`none`). -/
abbrev JSNum := Option Int

/-- JS `+` (NaN propagates). -/
def jsAdd : JSNum → JSNum → JSNum
  | some a, some b => some (a + b)
  | _, _ => none

/-- JS `-` (NaN propagates). -/
def jsSub : JSNum → JSNum → JSNum
  | some a, some b => some (a - b)
  | _, _ => none

/-- JS `>=` (every comparison with NaN is false). -/
def jsGe : JSNum → JSNum → Bool
  | some a, some b => decide (a ≥ b)
  | _, _ => false

/-- JS `>` (every comparison with NaN is false). -/
def jsGt : JSNum → JSNum → Bool
  | some a, some b => decide (a > b)
  | _, _ => false

/-- JS `String(n)` for an integral number: `"NaN"` for NaN. -/
def jsNumToString : JSNum → String
  | none => "NaN"
  | some n => toString n

/-- Leading decimal digits of a character list. -/
def leadingDigits (cs : List Char) : List Char :=
  cs.takeWhile Char.isDigit

/-- Numeric value of a digit list. -/
def digitsToNat (ds : List Char) : Nat :=
  ds.foldl (fun acc c => acc * 10 + (c.toNat - 48)) 0

/-- `parseInt(s, 10)`: skip leading whitespace, read an optional sign and
the longest run of leading decimal digits; `NaN` when no digit follows. -/
def jsParseInt (s : String) : JSNum :=
  let cs := s.data.dropWhile
    (fun c => c = ' ' || c = '\t' || c = '\n' || c = '\r' || c = '\x0b' || c = '\x0c')
  match cs with
  | '-' :: rest =>
      if leadingDigits rest = [] then none
      else some (-(digitsToNat (leadingDigits rest) : Int))
  | '+' :: rest =>
      if leadingDigits rest = [] then none
      else some ((digitsToNat (leadingDigits rest) : Int))
  | _ =>
      if leadingDigits cs = [] then none
      else some ((digitsToNat (leadingDigits cs) : Int))

-- ═══════════════════════════════════════════════════════════════════
-- Range-aware stream proxy (src/server/src/routes/stream.ts)
-- ═══════════════════════════════════════════════════════════════════

/-- The byte stream handed to `reply.send`. `window` records the
`createReadStream` options `{ start, end }` (inclusive, JS numbers). -/
inductive BodySpec where
  | empty
  | wholeFile
  | window (rangeStart rangeEnd : JSNum)
  | errorJson (error : String)
deriving DecidableEq, Repr

/-- The observable HTTP response of the streaming route: status plus the
headers the handler sets explicitly (a header the handler does not set is
`none`). -/
structure StreamResponse where
  status : Nat
  contentType : Option String := none
  contentRange : Option String := none
  acceptRanges : Option String := none
  contentLength : Option String := none
  body : BodySpec
deriving DecidableEq, Repr

/-- `const start = parseInt(parts[0], 10)` with
`parts = range.replace(/bytes=/, '').split('-')`. -/
def parseRangeStart (r : String) : JSNum :=
  jsParseInt ((jsSplit (stripBytesMarker r) '-').headD "")

/-- `const end = parts[1] ? parseInt(parts[1], 10) : fileSize - 1`
(`parts[1]` is falsy when absent or empty). -/
def parseRangeEnd (r : String) (fileSize : Int) : JSNum :=
  match (jsSplit (stripBytesMarker r) '-').get? 1 with
  | some p => if p = "" then some (fileSize - 1) else jsParseInt p
  | none => some (fileSize - 1)

/-- `start >= fileSize || end >= fileSize || start > end`, under JS
number comparison semantics. -/
def rangeGuard (rangeStart rangeEnd : JSNum) (fileSize : Int) : Bool :=
  jsGe rangeStart (some fileSize) || jsGe rangeEnd (some fileSize) || jsGt rangeStart rangeEnd

/-- `!resolved.startsWith(resolvedBase)` for
`resolved = path.resolve(path.normalize(path.join(base, filePath)))` and
`resolvedBase = path.resolve(base)` — the traversal check of `streamLocal`. -/
def escapesBase (base filePath : String) : Bool :=
  !(strStartsWith (posixResolve (posixJoin base filePath)) (posixResolve base))

/-- Whether the `{ start, end }` options of a ranged read stream pass the
constructor's synchronous validation. Node's `fs.ReadStream` runs
`validateInteger(start, 'options.start', 0)` and
`validateInteger(end, 'options.end', 0)` and rejects `start > end`, and
ssh2's SFTP `ReadStream` carries the same ported `checkPosition` checks:
a NaN or negative offset, or `start > end`, throws `ERR_OUT_OF_RANGE`
synchronously, BEFORE `reply.send` runs. (The `MAX_SAFE_INTEGER` upper
bound is not modelled: the route only reaches this point with offsets
below the stat'd file size.) -/
def readStreamWindowValid : JSNum → JSNum → Bool
  | some s, some e => decide (0 ≤ s) && decide (0 ≤ e) && decide (s ≤ e)
  | _, _ => false

/-- `return reply.send(createReadStream(..., { start, end }))` under the
route's try/catch: a valid window is streamed as the prepared 206
response; an invalid one makes the constructor throw before the send, and
the handler's catch (the error is neither `ENOENT` nor `EACCES`) replies
`500` with `{ error: 'Failed to stream track', details: ... }` — the
headers already written onto the reply stay as set; the backend-specific
`details` message is not modelled. -/
def sendWindowStream (prepared : StreamResponse) (rangeStart rangeEnd : JSNum) :
    StreamResponse :=
  if readStreamWindowValid rangeStart rangeEnd then prepared
  else { prepared with status := 500, body := .errorJson "Failed to stream track" }

/-- `streamLocal` (stream.ts lines 95–139): traversal check, then the
range logic over the stat'd file size, the ranged send going through the
read-stream constructor's validation. DB lookups, `fs.access`/`fs.stat`
and the `ENOENT`/`EACCES` arms of the surrounding handler's catch are
external to this function. -/
def streamLocal (localDirPath trackFilePath : String) (fileSize : Int)
    (contentType : String) (range : Option String) : StreamResponse :=
  if escapesBase localDirPath trackFilePath then
    { status := 400, body := .errorJson "Invalid file path" }
  else
    match range with
    | some r =>
        let rangeStart := parseRangeStart r
        let rangeEnd := parseRangeEnd r fileSize
        if rangeGuard rangeStart rangeEnd fileSize then
          { status := 416, contentType := some contentType,
            contentRange := some ("bytes */" ++ toString fileSize),
            body := .empty }
        else
          sendWindowStream
            { status := 206, contentType := some contentType,
              contentRange := some ("bytes " ++ jsNumToString rangeStart ++ "-"
                ++ jsNumToString rangeEnd ++ "/" ++ toString fileSize),
              acceptRanges := some "bytes",
              contentLength := some (jsNumToString (jsAdd (jsSub rangeEnd rangeStart) (some 1))),
              body := .window rangeStart rangeEnd }
            rangeStart rangeEnd
    | none =>
        { status := 200, contentType := some contentType,
          acceptRanges := some "bytes",
          contentLength := some (toString fileSize),
          body := .wholeFile }

/-- `streamRemote` (stream.ts lines 141–210): the remote path is
`path.posix.join(album.remoteDirPath, track.filePath)` and — unlike
`streamLocal` — no containment check is performed on it; then the same
range logic over the SFTP-stat'd file size, the ranged send going through
ssh2's read-stream constructor validation. Library/host DB lookups and
the SFTP plumbing are external to this function. -/
def streamRemote (remoteDirPath trackFilePath : String) (fileSize : Int)
    (contentType : String) (range : Option String) : StreamResponse :=
  match range with
  | some r =>
      let rangeStart := parseRangeStart r
      let rangeEnd := parseRangeEnd r fileSize
      if rangeGuard rangeStart rangeEnd fileSize then
        { status := 416, contentType := some contentType,
          contentRange := some ("bytes */" ++ toString fileSize),
          body := .empty }
      else
        sendWindowStream
          { status := 206, contentType := some contentType,
            contentRange := some ("bytes " ++ jsNumToString rangeStart ++ "-"
              ++ jsNumToString rangeEnd ++ "/" ++ toString fileSize),
            acceptRanges := some "bytes",
            contentLength := some (jsNumToString (jsAdd (jsSub rangeEnd rangeStart) (some 1))),
            body := .window rangeStart rangeEnd }
          rangeStart rangeEnd
  | none =>
      { status := 200, contentType := some contentType,
        acceptRanges := some "bytes",
        contentLength := some (toString fileSize),
        body := .wholeFile }

/-- The file bytes a `BodySpec` streams for a file with the given content,
per Node semantics: `createReadStream(path)` streams the whole file and
`createReadStream(path, { start, end })` streams the inclusive window
`start..end`. JSON error bodies and empty sends stream no file bytes. -/
def fileBytesSent (file : List Nat) : BodySpec → List Nat
  | .empty => []
  | .errorJson _ => []
  | .wholeFile => file
  | .window (some s) (some e) => (file.drop s.toNat).take ((e - s + 1).toNat)
  | .window _ _ => []

-- ═══════════════════════════════════════════════════════════════════
-- SshConnectionManager (src/server/src/services/scanQueue.ts, the
-- sshConnectionManager module: getSftp / createConnection /
-- removeConnection)
-- ═══════════════════════════════════════════════════════════════════

/-- The `HostConfig` the connection manager receives (note: it carries NO
stored fingerprint field). -/
structure HostCfg where
  id : String
  host : String
  port : Nat
  username : String
  privateKeyPath : Option String
deriving DecidableEq, Repr

/-- A pool entry: the SFTP channel (identified by a number) together with
the configuration the underlying `ssh2` client was connected with —
the latter is a ghost field recording the credentials in force when
`client.connect` ran; the source `PoolEntry` holds the live `client`
object itself. Idle timers are resource hygiene and are not modelled. -/
structure PoolEntryM where
  sftp : Nat
  establishedWith : HostCfg
deriving DecidableEq, Repr

/-- Manager state: `pool` and `connecting` are the two `Map`s of the
class, keyed by `hostConfig.id`; `nextFresh` supplies identities for new
attempts and channels. -/
structure MgrState where
  pool : String → Option PoolEntryM
  connecting : String → Option Nat
  nextFresh : Nat

/-- What a `getSftp` caller observes: an existing pooled channel, the
in-flight attempt it will await (`return existing`), or a newly started
physical connection attempt. -/
inductive AcquireResult where
  | pooled (sftp : Nat)
  | shared (attempt : Nat)
  | started (attempt : Nat)
deriving DecidableEq, Repr

/-- One atomic execution of the synchronous prefix of `getSftp` (no await
point occurs between the two map lookups and the `connecting.set`, so the
event loop runs it atomically): pool hit returns the entry's sftp channel
(and resets its idle timer); otherwise an in-flight attempt for the id is
returned as-is; otherwise `createConnection` is started and registered. -/
def getSftpStep (s : MgrState) (cfg : HostCfg) : AcquireResult × MgrState :=
  match s.pool cfg.id with
  | some entry => (.pooled entry.sftp, s)
  | none =>
      match s.connecting cfg.id with
      | some a => (.shared a, s)
      | none =>
          (.started s.nextFresh,
            { s with
                connecting := fun i => if i = cfg.id then some s.nextFresh else s.connecting i,
                nextFresh := s.nextFresh + 1 })

/-- How a connection attempt settles. -/
inductive AttemptOutcome where
  | success
  | failure
deriving DecidableEq, Repr

/-- Settlement of the in-flight attempt for `cfg.id`: on success the
`ready`/`sftp` callback stores the pool entry (recording the config the
client connected with) and the awaiting caller's `finally` deletes the
in-flight record; on failure (connect error, timeout destroy, key read
error) only the `finally` deletion runs. -/
def settleStep (s : MgrState) (cfg : HostCfg) (outcome : AttemptOutcome) : MgrState :=
  match outcome with
  | .success =>
      { s with
          pool := fun i => if i = cfg.id then some ⟨s.nextFresh, cfg⟩ else s.pool i,
          connecting := fun i => if i = cfg.id then none else s.connecting i,
          nextFresh := s.nextFresh + 1 }
  | .failure =>
      { s with connecting := fun i => if i = cfg.id then none else s.connecting i }

/-- `removeConnection(id)`: clear the idle timer, end the client and drop
the pool entry; a no-op when no entry exists. -/
def removeConnectionStep (s : MgrState) (id : String) : MgrState :=
  match s.pool id with
  | some _ => { s with pool := fun i => if i = id then none else s.pool i }
  | none => s

-- ── ssh2 connect options built by createConnection ──────────────────

/-- The `ssh2` `client.connect` options relevant to host-key trust, as
`createConnection` builds them: credentials plus an optional
`hostVerifier` callback. -/
structure ConnectOptions where
  host : String
  port : Nat
  username : String
  usesPrivateKey : Bool
  agent : Option String
  readyTimeoutMs : Nat
  hostVerifier : Option (String → Bool)

/-- The exact options object `SshConnectionManager.createConnection`
passes to `client.connect` (scanQueue.ts lines 654–661): key or agent
auth and a ready timeout — and NO `hostVerifier` entry. `keyRead` is the
result of `readFileSync(privateKeyPath)` when a key path is configured. -/
def managerConnectOptions (cfg : HostCfg) (keyRead : Option String)
    (sshAuthSock : Option String) (connectTimeoutMs : Nat) : ConnectOptions :=
  { host := cfg.host
    port := cfg.port
    username := cfg.username
    usesPrivateKey := keyRead.isSome
    agent := if keyRead.isSome then none else sshAuthSock
    readyTimeoutMs := connectTimeoutMs
    hostVerifier := none }

/-- Whether `ssh2` accepts the host key offered during the handshake:
with no `hostVerifier` configured the key is accepted unconditionally;
otherwise the verifier decides. -/
def ssh2HostKeyAccepted (opts : ConnectOptions) (observedHostKey : String) : Bool :=
  match opts.hostVerifier with
  | none => true
  | some verifier => verifier observedHostKey

-- ═══════════════════════════════════════════════════════════════════
-- testConnectionHandler TOFU logic (src/server/src/routes/remoteHosts.ts)
-- ═══════════════════════════════════════════════════════════════════

/-- The JSON body `testConnectionHandler` replies with. -/
structure TestConnectionResponse where
  success : Bool
  message : String
  fingerprint : Option String := none
  needsAcceptance : Option Bool := none
deriving DecidableEq, Repr

/-- Outcome of the handler's SSH probe: `ok fp` when the connection became
ready and the `hostVerifier` captured fingerprint `fp`
(`SHA256:` + base64 of the host key hash); `connError` when the client
errored or timed out; `keyReadError` when `readFileSync` on the
configured private key threw. -/
inductive HandshakeOutcome where
  | ok (fingerprint : String)
  | connError (message : String)
  | keyReadError (message : String)
deriving DecidableEq, Repr

/-- JS truthiness of `host.hostFingerprint` (a SQL NULL maps to `none`). -/
def isTruthyStr : Option String → Bool
  | none => false
  | some s => s ≠ ""

/-- `testConnectionHandler` (remoteHosts.ts lines 182–281) as a function
from the stored fingerprint, the `acceptFingerprint` flag and the probe
outcome to the reply and the fingerprint stored after the call. -/
def testConnectionStep (stored : Option String) (acceptFingerprint : Bool)
    (outcome : HandshakeOutcome) : TestConnectionResponse × Option String :=
  match outcome with
  | .keyReadError m =>
      ({ success := false, message := "Cannot read private key: " ++ m }, stored)
  | .connError m =>
      ({ success := false, message := m }, stored)
  | .ok fp =>
      if isTruthyStr stored then
        if stored.getD "" ≠ fp then
          ({ success := false
             message := "Host fingerprint has changed! This could indicate a security issue."
             fingerprint := some fp }, stored)
        else
          ({ success := true
             message := "Connection successful — fingerprint verified"
             fingerprint := some fp }, stored)
      else if acceptFingerprint then
        ({ success := true
           message := "Connection successful — fingerprint accepted and stored"
           fingerprint := some fp }, some fp)
      else
        ({ success := false
           message := "New host fingerprint detected. Please verify and accept."
           fingerprint := some fp
           needsAcceptance := some true }, stored)

-- ═══════════════════════════════════════════════════════════════════
-- Format detector allow-lists (src/server/src/services/formatDetector.ts)
-- ═══════════════════════════════════════════════════════════════════

/-- `AUDIO_EXTENSIONS`. -/
def audioExtensions : List String :=
  [".flac", ".mp3", ".m4a", ".aac", ".ogg", ".opus", ".wav", ".aiff",
   ".aif", ".ape", ".wv", ".alac"]

/-- `COVER_ART_FILENAMES`. -/
def coverArtFilenames : List String :=
  ["cover.jpg", "cover.jpeg", "cover.png", "folder.jpg", "folder.jpeg",
   "folder.png", "front.jpg", "front.jpeg", "front.png", "album.jpg",
   "album.jpeg", "album.png", "artwork.jpg", "artwork.jpeg", "artwork.png"]

/-- `filename.substring(filename.lastIndexOf('.'))`: the whole string when
no dot occurs (`lastIndexOf` is `-1` and `substring(-1)` clamps to `0`),
else the suffix from the last dot inclusive. -/
def extAfterLastDot (s : String) : String :=
  let rev := s.data.reverse
  if rev.contains '.' then
    String.mk ('.' :: (rev.takeWhile (fun c => c ≠ '.')).reverse)
  else s

/-- `isAudioFile`. -/
def isAudioFile (filename : String) : Bool :=
  audioExtensions.contains (lowerStr (extAfterLastDot filename))

/-- `isCoverArt`. -/
def isCoverArt (filename : String) : Bool :=
  coverArtFilenames.contains (lowerStr filename)

-- ═══════════════════════════════════════════════════════════════════
-- Remote directory walker (src/server/src/services/directoryWalker.ts)
-- ═══════════════════════════════════════════════════════════════════

/-- A remote file tree as the SFTP server presents it. `deniedDir` is a
directory whose `readdir` fails (permission denied / transient error). -/
inductive FSEntry where
  | file (name : String) (size : Nat)
  | dir (name : String) (entries : List FSEntry)
  | deniedDir (name : String)

/-- The name of an entry (`entry.filename` in the SFTP listing). -/
def FSEntry.name : FSEntry → String
  | .file n _ => n
  | .dir n _ => n
  | .deniedDir n => n

/-- `DiscoveredFile`. -/
structure DiscoveredFile where
  absolutePath : String
  relativePath : String
  filename : String
  size : Nat
deriving DecidableEq, Repr

/-- `DiscoveredAlbumDir`. -/
structure DiscoveredAlbumDir where
  dirPath : String
  relativeDirPath : String
  audioFiles : List DiscoveredFile
  coverArtPath : Option String
deriving DecidableEq, Repr

/-- The `audioFiles` accumulated over a directory listing: one
`DiscoveredFile` per file entry whose name passes `isAudioFile`, in
listing order (directories and non-audio files contribute nothing). -/
def dirAudioFiles (root dirPath : String) : List FSEntry → List DiscoveredFile
  | [] => []
  | .file n sz :: rest =>
      if isAudioFile n then
        { absolutePath := posixJoin dirPath n
          relativePath := posixRelative root (posixJoin dirPath n)
          filename := n
          size := sz } :: dirAudioFiles root dirPath rest
      else dirAudioFiles root dirPath rest
  | _ :: rest => dirAudioFiles root dirPath rest

/-- The cover art found in a directory listing: the first file entry that
is not audio and whose lower-cased name is a conventional cover filename
(the `else if (!coverArtPath && isCoverArt(...))` branch). -/
def dirCoverArt (dirPath : String) : List FSEntry → Option String
  | [] => none
  | .file n _ :: rest =>
      if !isAudioFile n && isCoverArt n then some (posixJoin dirPath n)
      else dirCoverArt dirPath rest
  | _ :: rest => dirCoverArt dirPath rest

mutual

/-- `walk(dirPath)` of `walkRemoteLibrary`, for the node rooted at
`dirPath`: an unreadable directory (or a plain file) contributes nothing;
a readable directory contributes a `DiscoveredAlbumDir` when it directly
contains audio files (pushed BEFORE recursing, so discovery is preorder),
then the walks of its subdirectories in listing order. -/
def walkNode (root dirPath : String) : FSEntry → List DiscoveredAlbumDir
  | .file _ _ => []
  | .deniedDir _ => []
  | .dir _ entries =>
      let audio := dirAudioFiles root dirPath entries
      (if audio.isEmpty then []
       else
         [{ dirPath := dirPath
            relativeDirPath := posixRelative root dirPath
            audioFiles := audio
            coverArtPath := dirCoverArt dirPath entries }])
        ++ walkChildren root dirPath entries

/-- The recursion over `subdirs`: every entry that stats as a directory
(readable or not) is visited in listing order; file entries were consumed
by the scan above. -/
def walkChildren (root dirPath : String) : List FSEntry → List DiscoveredAlbumDir
  | [] => []
  | .dir n es :: rest =>
      walkNode root (posixJoin dirPath n) (.dir n es) ++ walkChildren root dirPath rest
  | .deniedDir n :: rest =>
      walkNode root (posixJoin dirPath n) (.deniedDir n) ++ walkChildren root dirPath rest
  | .file _ _ :: rest => walkChildren root dirPath rest

end

/-- `walkRemoteLibrary(sftp, rootPath, onProgress)`: walk the tree rooted
at `rootPath`. (`onProgress` only reports paths; it does not affect the
result.) -/
def walkRemoteLibrary (rootPath : String) (fs : FSEntry) : List DiscoveredAlbumDir :=
  walkNode rootPath rootPath fs

/-- The audio files a directory node DIRECTLY contains (the spec's
"directly contains at least one recognized audio file"), with the same
`DiscoveredFile` data the walker records. -/
def directAudioFiles (root dirPath : String) : FSEntry → List DiscoveredFile
  | .dir _ entries => dirAudioFiles root dirPath entries
  | _ => []

/-- `DirAt p t q u`: the tree `u`, located at path `q`, is a node of the
tree `t` located at path `p` (reflexively, or through a chain of listing
entries, each step extending the path by `posixJoin` with the entry name
exactly as the walker does). -/
inductive DirAt : String → FSEntry → String → FSEntry → Prop where
  | here (p : String) (t : FSEntry) : DirAt p t p t
  | child {p q : String} {nm : String} {entries : List FSEntry} {e u : FSEntry}
      (he : e ∈ entries) (h : DirAt (posixJoin p e.name) e q u) :
      DirAt p (.dir nm entries) q u

-- ═══════════════════════════════════════════════════════════════════
-- Concrete instances used by counterexamples and witnesses
-- ═══════════════════════════════════════════════════════════════════

/-- The spec's walker example: audio files at `A/B/track1.flac` and
`A/B/Disc 1/track2.flac` under the library root. -/
def specExampleTree : FSEntry :=
  .dir "" [.dir "A" [.dir "B"
    [.file "track1.flac" 100, .dir "Disc 1" [.file "track2.flac" 200]]]]

/-- The subtree of `specExampleTree` at `/lib/A/B`. -/
def specExampleDirB : FSEntry :=
  .dir "B" [.file "track1.flac" 100, .dir "Disc 1" [.file "track2.flac" 200]]

/-- A host configuration as originally stored. -/
def c7OldCfg : HostCfg :=
  { id := "host-1", host := "old.seedbox.example", port := 22,
    username := "seed", privateKeyPath := some "/keys/old" }

/-- The same host id after the operator changed `host` and
`privateKeyPath`. -/
def c7NewCfg : HostCfg :=
  { id := "host-1", host := "new.seedbox.example", port := 22,
    username := "seed", privateKeyPath := some "/keys/new" }

/-- A manager state holding a pooled channel (number 5) for `host-1`
that was established with the OLD credentials. -/
def c7PoolState : MgrState :=
  { pool := fun i => if i = "host-1" then some ⟨5, c7OldCfg⟩ else none,
    connecting := fun _ => none,
    nextFresh := 9 }

/-- A manager state in which a connection attempt (number 7) for `host-1`
is in flight and nothing is pooled yet. -/
def c3InflightState : MgrState :=
  { pool := fun _ => none,
    connecting := fun i => if i = "host-1" then some 7 else none,
    nextFresh := 8 }

-- ═══════════════════════════════════════════════════════════════════
-- Helper lemmas
-- ═══════════════════════════════════════════════════════════════════

theorem jsGe_some_some (a b : Int) : jsGe (some a) (some b) = decide (a ≥ b) := rfl

theorem jsGt_some_some (a b : Int) : jsGt (some a) (some b) = decide (a > b) := rfl

theorem rangeGuard_false_of_bounds {s e n : Int} (hsN : s < n) (heN : e < n) (hse : s ≤ e) :
    rangeGuard (some s) (some e) n = false := by
  simp only [rangeGuard, jsGe_some_some, jsGt_some_some, Bool.or_eq_false_iff,
    decide_eq_false_iff_not]
  omega

theorem rangeGuard_true_of_unsat {s e n : Int} (h : s ≥ n ∨ e ≥ n ∨ s > e) :
    rangeGuard (some s) (some e) n = true := by
  simp only [rangeGuard, jsGe_some_some, jsGt_some_some, Bool.or_eq_true,
    decide_eq_true_eq]
  omega

theorem rangeGuard_nan_start_false {e n : Int} (heN : e < n) :
    rangeGuard none (some e) n = false := by
  simp only [rangeGuard, jsGe, jsGt, Bool.false_or, Bool.or_false,
    decide_eq_false_iff_not]
  omega

-- ── Walker lemmas ──────────────────────────────────────────────────

mutual

theorem walkNode_audio_ne (root p : String) (t : FSEntry) :
    ∀ x ∈ walkNode root p t, x.audioFiles ≠ [] := by
  match t with
  | .file n sz => intro x hx; simp [walkNode] at hx
  | .deniedDir n => intro x hx; simp [walkNode] at hx
  | .dir n entries =>
      intro x hx
      rw [walkNode] at hx
      rcases List.mem_append.mp hx with h | h
      · by_cases ha : (dirAudioFiles root p entries).isEmpty
        · simp [ha] at h
        · simp only [ha, if_neg, Bool.false_eq_true, not_false_eq_true,
            List.mem_singleton] at h
          subst h
          simpa [List.isEmpty_iff] using ha
      · exact walkChildren_audio_ne root p entries x h

theorem walkChildren_audio_ne (root p : String) (l : List FSEntry) :
    ∀ x ∈ walkChildren root p l, x.audioFiles ≠ [] := by
  match l with
  | [] => intro x hx; simp [walkChildren] at hx
  | .file n sz :: rest =>
      intro x hx
      rw [walkChildren] at hx
      exact walkChildren_audio_ne root p rest x hx
  | .dir n es :: rest =>
      intro x hx
      rw [walkChildren] at hx
      rcases List.mem_append.mp hx with h | h
      · exact walkNode_audio_ne root (posixJoin p n) (.dir n es) x h
      · exact walkChildren_audio_ne root p rest x h
  | .deniedDir n :: rest =>
      intro x hx
      rw [walkChildren] at hx
      rcases List.mem_append.mp hx with h | h
      · exact walkNode_audio_ne root (posixJoin p n) (.deniedDir n) x h
      · exact walkChildren_audio_ne root p rest x h

end

theorem mem_walkChildren_of_mem (root p : String) {l : List FSEntry} {e : FSEntry}
    (he : e ∈ l) {x : DiscoveredAlbumDir}
    (hx : x ∈ walkNode root (posixJoin p e.name) e) :
    x ∈ walkChildren root p l := by
  induction l with
  | nil => cases he
  | cons hd rest ih =>
      rcases List.mem_cons.mp he with rfl | hmem
      · match e with
        | .file n sz => rw [walkNode] at hx; cases hx
        | .dir n es =>
            rw [walkChildren]
            exact List.mem_append.mpr (Or.inl hx)
        | .deniedDir n =>
            rw [walkChildren]
            exact List.mem_append.mpr (Or.inl hx)
      · match hd with
        | .file n sz => rw [walkChildren]; exact ih hmem
        | .dir n es => rw [walkChildren]; exact List.mem_append.mpr (Or.inr (ih hmem))
        | .deniedDir n => rw [walkChildren]; exact List.mem_append.mpr (Or.inr (ih hmem))

theorem dirAt_mem_walkNode {root p q : String} {t u : FSEntry}
    (h : DirAt p t q u) (hne : directAudioFiles root q u ≠ []) :
    ∃ x ∈ walkNode root p t,
      x.dirPath = q ∧ x.audioFiles = directAudioFiles root q u := by
  induction h with
  | here p t =>
      match t with
      | .file n sz => exact absurd rfl hne
      | .deniedDir n => exact absurd rfl hne
      | .dir n entries =>
          have haudio : dirAudioFiles root p entries ≠ [] := hne
          refine ⟨{ dirPath := p, relativeDirPath := posixRelative root p,
                    audioFiles := dirAudioFiles root p entries,
                    coverArtPath := dirCoverArt p entries }, ?_, rfl, rfl⟩
          rw [walkNode]
          have : (dirAudioFiles root p entries).isEmpty = false :=
            List.isEmpty_eq_false.mpr haudio
          simp [this]
  | child he hsub ih =>
      obtain ⟨x, hx, hq, ha⟩ := ih hne
      refine ⟨x, ?_, hq, ha⟩
      rw [walkNode]
      exact List.mem_append.mpr (Or.inr (mem_walkChildren_of_mem root _ he hx))

mutual

theorem walkNode_sound (root p : String) (t : FSEntry) :
    ∀ x ∈ walkNode root p t,
      ∃ q u, DirAt p t q u ∧ x.dirPath = q ∧
        x.audioFiles = directAudioFiles root q u := by
  match t with
  | .file n sz => intro x hx; rw [walkNode] at hx; cases hx
  | .deniedDir n => intro x hx; rw [walkNode] at hx; cases hx
  | .dir n entries =>
      intro x hx
      rw [walkNode] at hx
      rcases List.mem_append.mp hx with h | h
      · by_cases ha : (dirAudioFiles root p entries).isEmpty
        · simp [ha] at h
        · simp only [ha, Bool.false_eq_true, if_neg, not_false_eq_true,
            List.mem_singleton] at h
          subst h
          exact ⟨p, .dir n entries, DirAt.here p _, rfl, rfl⟩
      · obtain ⟨e, he, q, u, hda, hdp, haf⟩ := walkChildren_sound root p entries x h
        exact ⟨q, u, DirAt.child he hda, hdp, haf⟩

theorem walkChildren_sound (root p : String) (l : List FSEntry) :
    ∀ x ∈ walkChildren root p l,
      ∃ e ∈ l, ∃ q u, DirAt (posixJoin p e.name) e q u ∧ x.dirPath = q ∧
        x.audioFiles = directAudioFiles root q u := by
  match l with
  | [] => intro x hx; rw [walkChildren] at hx; cases hx
  | .file n sz :: rest =>
      intro x hx
      rw [walkChildren] at hx
      obtain ⟨e, he, hr⟩ := walkChildren_sound root p rest x hx
      exact ⟨e, List.mem_cons_of_mem _ he, hr⟩
  | .dir n es :: rest =>
      intro x hx
      rw [walkChildren] at hx
      rcases List.mem_append.mp hx with h | h
      · obtain ⟨q, u, hda, hdp, haf⟩ := walkNode_sound root (posixJoin p n) (.dir n es) x h
        exact ⟨.dir n es, List.mem_cons_self _ _, q, u, hda, hdp, haf⟩
      · obtain ⟨e, he, hr⟩ := walkChildren_sound root p rest x h
        exact ⟨e, List.mem_cons_of_mem _ he, hr⟩
  | .deniedDir n :: rest =>
      intro x hx
      rw [walkChildren] at hx
      rcases List.mem_append.mp hx with h | h
      · obtain ⟨q, u, hda, hdp, haf⟩ :=
          walkNode_sound root (posixJoin p n) (.deniedDir n) x h
        exact ⟨.deniedDir n, List.mem_cons_self _ _, q, u, hda, hdp, haf⟩
      · obtain ⟨e, he, hr⟩ := walkChildren_sound root p rest x h
        exact ⟨e, List.mem_cons_of_mem _ he, hr⟩

end

-- ═══════════════════════════════════════════════════════════════════
-- Claim theorems
-- ═══════════════════════════════════════════════════════════════════

/-- C8: a directory appears as a `DiscoveredAlbumDir` in the remote
walker's result iff it directly contains at least one file whose
extension is in the audio allow-list; every returned entry lists exactly
(and only) its own directory's direct audio files; and the spec's
`A/B/track1.flac` + `A/B/Disc 1/track2.flac` tree yields two separate
entries, each with only its own directory's files. -/
theorem walkRemote_album_dir_characterization
    (root q : String) (t u : FSEntry) (h : DirAt root t q u) :
    ((∃ x ∈ walkRemoteLibrary root t,
        x.dirPath = q ∧ x.audioFiles = directAudioFiles root q u)
      ↔ directAudioFiles root q u ≠ [])
    ∧ (∀ x ∈ walkRemoteLibrary root t,
        ∃ p2 u2, DirAt root t p2 u2 ∧ x.dirPath = p2 ∧
          x.audioFiles = directAudioFiles root p2 u2 ∧ x.audioFiles ≠ [])
    ∧ walkRemoteLibrary "/lib" specExampleTree =
      [ { dirPath := "/lib/A/B", relativeDirPath := "A/B",
          audioFiles := [{ absolutePath := "/lib/A/B/track1.flac",
                           relativePath := "A/B/track1.flac",
                           filename := "track1.flac", size := 100 }],
          coverArtPath := none },
        { dirPath := "/lib/A/B/Disc 1", relativeDirPath := "A/B/Disc 1",
          audioFiles := [{ absolutePath := "/lib/A/B/Disc 1/track2.flac",
                           relativePath := "A/B/Disc 1/track2.flac",
                           filename := "track2.flac", size := 200 }],
          coverArtPath := none } ] := by
  refine ⟨⟨?_, ?_⟩, ?_, by decide⟩
  · rintro ⟨x, hx, _, haf⟩ hnil
    exact walkNode_audio_ne root root t x hx (haf.trans hnil)
  · intro hne
    exact dirAt_mem_walkNode h hne
  · intro x hx
    obtain ⟨p2, u2, hda, hdp, haf⟩ := walkNode_sound root root t x hx
    exact ⟨p2, u2, hda, hdp, haf, walkNode_audio_ne root root t x hx⟩

/-- C8 witness: the characterization applied to the concrete example
tree at the located subdirectory `/lib/A/B`. -/
theorem walkRemote_album_dir_characterization_witness :
    (∃ x ∈ walkRemoteLibrary "/lib" specExampleTree,
        x.dirPath = "/lib/A/B" ∧
          x.audioFiles = directAudioFiles "/lib" "/lib/A/B" specExampleDirB)
      ↔ directAudioFiles "/lib" "/lib/A/B" specExampleDirB ≠ [] :=
  (walkRemote_album_dir_characterization "/lib" "/lib/A/B" specExampleTree specExampleDirB
    (DirAt.child (List.mem_singleton.mpr rfl)
      (DirAt.child (List.mem_singleton.mpr rfl) (DirAt.here _ _)))).1

/-- C3: the single-flight discipline of `getSftp`: a second caller that
arrives while an attempt for the same host id is in flight receives that
very attempt (and the manager state is untouched — no second physical
connection is started); settling an attempt removes the in-flight record
whether it succeeded or failed; acquiring never removes an in-flight
record; and after a failed settlement the next caller starts a FRESH
attempt rather than receiving the failed one. -/
theorem sshManager_single_flight (s : MgrState) (cfg : HostCfg) (a : Nat) :
    (s.pool cfg.id = none → s.connecting cfg.id = some a →
        getSftpStep s cfg = (.shared a, s))
    ∧ (∀ outcome, (settleStep s cfg outcome).connecting cfg.id = none)
    ∧ (s.connecting cfg.id = some a →
        (getSftpStep s cfg).2.connecting cfg.id = some a)
    ∧ (s.pool cfg.id = none →
        (getSftpStep (settleStep s cfg .failure) cfg).1 = .started s.nextFresh) := by
  refine ⟨?_, ?_, ?_, ?_⟩
  · intro hp hc
    simp [getSftpStep, hp, hc]
  · intro outcome
    cases outcome <;> simp [settleStep]
  · intro hc
    cases hp : s.pool cfg.id <;> simp [getSftpStep, hp, hc]
  · intro hp
    simp [getSftpStep, settleStep, hp]

/-- C3 witness: in a state with attempt 7 in flight for `host-1`, a
caller for `host-1` shares attempt 7 and leaves the state unchanged. -/
theorem sshManager_single_flight_witness :
    getSftpStep c3InflightState
        { id := "host-1", host := "seedbox.example", port := 22,
          username := "seed", privateKeyPath := none }
      = (.shared 7, c3InflightState) :=
  (sshManager_single_flight c3InflightState
    { id := "host-1", host := "seedbox.example", port := 22,
      username := "seed", privateKeyPath := none } 7).1 (by decide) (by decide)

/-- C4: the options `SshConnectionManager.createConnection` hands to
`ssh2`'s `client.connect` contain no `hostVerifier`, so the transport
accepts EVERY offered host key; no fingerprint is derived or compared on
this path (the manager's `HostConfig` does not even carry the stored
fingerprint), so a pooled connection for streaming or scanning succeeds
regardless of any stored fingerprint — contradicting the claimed
invariant. -/
theorem sshManager_pooled_connection_skips_fingerprint_check
    (cfg : HostCfg) (keyRead sshAuthSock : Option String) (timeoutMs : Nat)
    (observedHostKey : String) :
    (managerConnectOptions cfg keyRead sshAuthSock timeoutMs).hostVerifier = none
    ∧ ssh2HostKeyAccepted (managerConnectOptions cfg keyRead sshAuthSock timeoutMs)
        observedHostKey = true :=
  ⟨rfl, rfl⟩

/-- C7 counterexample: with channel 5 pooled for `host-1` under the old
credentials, a `getSftp` carrying CHANGED host and key path for the same
id still receives channel 5 and starts nothing fresh — the claim that a
credential change invalidates the pooled connection is false. -/
theorem getSftp_ignores_changed_credentials_cex :
    c7OldCfg.host ≠ c7NewCfg.host
    ∧ c7OldCfg.privateKeyPath ≠ c7NewCfg.privateKeyPath
    ∧ c7PoolState.pool "host-1" = some { sftp := 5, establishedWith := c7OldCfg }
    ∧ (getSftpStep c7PoolState c7NewCfg).1 = .pooled 5
    ∧ (getSftpStep c7PoolState c7NewCfg).2.connecting "host-1" = none
    ∧ (getSftpStep c7PoolState c7NewCfg).2.nextFresh = c7PoolState.nextFresh := by
  exact ⟨by decide, by decide, by decide, by decide, by decide, by decide⟩

/-- C7 (amended): `getSftp` keys solely on `hostConfig.id` and returns a
pooled entry untouched whatever credentials the call carries; only an
explicit `removeConnection(id)` empties the pool slot, after which (with
no attempt in flight) the next acquire starts a fresh connection. -/
theorem sshManager_evict_forces_fresh_connection
    (s : MgrState) (cfg : HostCfg) (entry : PoolEntryM) :
    (s.pool cfg.id = some entry → (getSftpStep s cfg).1 = .pooled entry.sftp)
    ∧ (removeConnectionStep s cfg.id).pool cfg.id = none
    ∧ (s.connecting cfg.id = none →
        (getSftpStep (removeConnectionStep s cfg.id) cfg).1
          = .started (removeConnectionStep s cfg.id).nextFresh) := by
  refine ⟨?_, ?_, ?_⟩
  · intro hp
    simp [getSftpStep, hp]
  · cases hp : s.pool cfg.id <;> simp [removeConnectionStep, hp]
  · intro hc
    cases hp : s.pool cfg.id <;> simp [removeConnectionStep, getSftpStep, hp, hc]

/-- C7 witness: evicting `host-1` from the concrete pooled state forces
the next acquire (with the new credentials) to start attempt 9 afresh. -/
theorem sshManager_evict_forces_fresh_connection_witness :
    (getSftpStep (removeConnectionStep c7PoolState c7NewCfg.id) c7NewCfg).1
      = .started (removeConnectionStep c7PoolState c7NewCfg.id).nextFresh :=
  (sshManager_evict_forces_fresh_connection c7PoolState c7NewCfg
    { sftp := 5, establishedWith := c7OldCfg }).2.2 (by decide)

/-- C5: when a stored fingerprint exists and the handshake produces a
different one, `testConnectionHandler` replies `success: false` with the
mismatch warning and leaves the stored fingerprint untouched. -/
theorem testConnection_fingerprint_mismatch
    (storedFp observedFp : String) (accept : Bool)
    (hstored : storedFp ≠ "") (hdiff : storedFp ≠ observedFp) :
    testConnectionStep (some storedFp) accept (.ok observedFp)
      = ({ success := false,
           message := "Host fingerprint has changed! This could indicate a security issue.",
           fingerprint := some observedFp, needsAcceptance := none },
         some storedFp) := by
  simp [testConnectionStep, isTruthyStr, hstored, hdiff]

/-- C5 witness: concrete mismatch between a stored and an observed
fingerprint. -/
theorem testConnection_fingerprint_mismatch_witness :
    testConnectionStep (some "SHA256:aaaa") true (.ok "SHA256:bbbb")
      = ({ success := false,
           message := "Host fingerprint has changed! This could indicate a security issue.",
           fingerprint := some "SHA256:bbbb", needsAcceptance := none },
         some "SHA256:aaaa") :=
  testConnection_fingerprint_mismatch "SHA256:aaaa" "SHA256:bbbb" true
    (by decide) (by decide)

/-- C6: with no stored fingerprint, a test without `acceptFingerprint`
reports `needsAcceptance: true`, fails, and stores nothing; repeating it
with `acceptFingerprint: true` persists the computed fingerprint and
succeeds; a further test against the stored value succeeds with no
`needsAcceptance`; and over all inputs, the reply carries
`needsAcceptance: true` exactly when the handshake succeeded, the stored
fingerprint was absent/empty and acceptance was not requested. -/
theorem testConnection_needs_acceptance_flow (fp : String) (hfp : fp ≠ "") :
    (testConnectionStep none false (.ok fp)).1.needsAcceptance = some true
    ∧ (testConnectionStep none false (.ok fp)).1.success = false
    ∧ (testConnectionStep none false (.ok fp)).2 = none
    ∧ (testConnectionStep none true (.ok fp)).2 = some fp
    ∧ (testConnectionStep none true (.ok fp)).1.success = true
    ∧ (testConnectionStep (testConnectionStep none true (.ok fp)).2 false
        (.ok fp)).1.success = true
    ∧ (testConnectionStep (testConnectionStep none true (.ok fp)).2 false
        (.ok fp)).1.needsAcceptance = none
    ∧ (∀ (stored : Option String) (accept : Bool) (outcome : HandshakeOutcome),
        (testConnectionStep stored accept outcome).1.needsAcceptance = some true
          ↔ (∃ g, outcome = .ok g) ∧ isTruthyStr stored = false ∧ accept = false) := by
  refine ⟨?_, ?_, ?_, ?_, ?_, ?_, ?_, ?_⟩
  · simp [testConnectionStep, isTruthyStr]
  · simp [testConnectionStep, isTruthyStr]
  · simp [testConnectionStep, isTruthyStr]
  · simp [testConnectionStep, isTruthyStr]
  · simp [testConnectionStep, isTruthyStr]
  · simp [testConnectionStep, isTruthyStr, hfp]
  · simp [testConnectionStep, isTruthyStr, hfp]
  · intro stored accept outcome
    cases outcome with
    | ok g =>
        by_cases ht : isTruthyStr stored = true
        · by_cases hd : stored.getD "" ≠ g <;>
            simp [testConnectionStep, ht, hd]
        · rw [Bool.not_eq_true] at ht
          cases accept <;> simp [testConnectionStep, ht]
    | connError m => simp [testConnectionStep]
    | keyReadError m => simp [testConnectionStep]

/-- C6 witness: the acceptance flow at a concrete fingerprint. -/
theorem testConnection_needs_acceptance_flow_witness :
    (testConnectionStep none false (.ok "SHA256:cccc")).1.needsAcceptance = some true :=
  (testConnection_needs_acceptance_flow "SHA256:cccc" (by decide)).1

/-- C1: for a file of `n` bytes and a parsed range with numeric `start`
(`end` defaulting to `n-1` when omitted), `start < n`, `end < n` and
`start ≤ end`, both backends answer 206 with
`Content-Range: bytes start-end/n`, `Content-Length: end-start+1`, and a
body that is exactly the file's bytes from `start` through `end`
inclusive. -/
theorem stream_range_partial_content
    (base remoteDir trackPath ct r : String) (n : Nat) (file : List Nat) (s e : Int)
    (hfile : file.length = n)
    (hok : escapesBase base trackPath = false)
    (hs : parseRangeStart r = some s)
    (he : parseRangeEnd r (n : Int) = some e)
    (h0 : 0 ≤ s) (hse : s ≤ e) (hsN : s < (n : Int)) (heN : e < (n : Int)) :
    ((streamLocal base trackPath (n : Int) ct (some r)).status = 206
      ∧ (streamLocal base trackPath (n : Int) ct (some r)).contentRange
          = some ("bytes " ++ toString s ++ "-" ++ toString e ++ "/" ++ toString (n : Int))
      ∧ (streamLocal base trackPath (n : Int) ct (some r)).contentLength
          = some (toString (e - s + 1))
      ∧ fileBytesSent file (streamLocal base trackPath (n : Int) ct (some r)).body
          = (file.drop s.toNat).take ((e - s + 1).toNat)
      ∧ (fileBytesSent file (streamLocal base trackPath (n : Int) ct (some r)).body).length
          = (e - s + 1).toNat)
    ∧ ((streamRemote remoteDir trackPath (n : Int) ct (some r)).status = 206
      ∧ (streamRemote remoteDir trackPath (n : Int) ct (some r)).contentRange
          = some ("bytes " ++ toString s ++ "-" ++ toString e ++ "/" ++ toString (n : Int))
      ∧ (streamRemote remoteDir trackPath (n : Int) ct (some r)).contentLength
          = some (toString (e - s + 1))
      ∧ fileBytesSent file (streamRemote remoteDir trackPath (n : Int) ct (some r)).body
          = (file.drop s.toNat).take ((e - s + 1).toNat)
      ∧ (fileBytesSent file (streamRemote remoteDir trackPath (n : Int) ct (some r)).body).length
          = (e - s + 1).toNat) := by
  have hguard := rangeGuard_false_of_bounds hsN heN hse
  have hvalid : readStreamWindowValid (some s) (some e) = true := by
    simp only [readStreamWindowValid, Bool.and_eq_true, decide_eq_true_eq]
    omega
  have hL : streamLocal base trackPath (n : Int) ct (some r)
      = { status := 206, contentType := some ct,
          contentRange := some ("bytes " ++ toString s ++ "-" ++ toString e
            ++ "/" ++ toString (n : Int)),
          acceptRanges := some "bytes",
          contentLength := some (toString (e - s + 1)),
          body := .window (some s) (some e) } := by
    simp only [streamLocal, hok, Bool.false_eq_true, if_false, hs, he, hguard,
      sendWindowStream, hvalid, if_true, jsSub, jsAdd, jsNumToString]
  have hR : streamRemote remoteDir trackPath (n : Int) ct (some r)
      = { status := 206, contentType := some ct,
          contentRange := some ("bytes " ++ toString s ++ "-" ++ toString e
            ++ "/" ++ toString (n : Int)),
          acceptRanges := some "bytes",
          contentLength := some (toString (e - s + 1)),
          body := .window (some s) (some e) } := by
    simp only [streamRemote, hs, he, hguard, Bool.false_eq_true, if_false,
      sendWindowStream, hvalid, if_true, jsSub, jsAdd, jsNumToString]
  have hlen : ((file.drop s.toNat).take ((e - s + 1).toNat)).length = (e - s + 1).toNat := by
    simp only [List.length_take, List.length_drop, hfile]
    omega
  rw [hL, hR]
  exact ⟨⟨rfl, rfl, rfl, rfl, hlen⟩, ⟨rfl, rfl, rfl, rfl, hlen⟩⟩

/-- C1 witness: file `[9, 8, 7, 6]` (n = 4) with `Range: bytes=1-2` gives
206 on both backends. -/
theorem stream_range_partial_content_witness :
    (streamLocal "/m" "t.flac" ((4 : Nat) : Int) "audio/flac" (some "bytes=1-2")).status = 206
    ∧ (streamRemote "/r" "t.flac" ((4 : Nat) : Int) "audio/flac" (some "bytes=1-2")).status = 206 :=
  ⟨(stream_range_partial_content "/m" "/r" "t.flac" "audio/flac" "bytes=1-2"
      4 [9, 8, 7, 6] 1 2 (by decide) (by decide) (by decide) (by decide)
      (by decide) (by decide) (by decide) (by decide)).1.1,
   (stream_range_partial_content "/m" "/r" "t.flac" "audio/flac" "bytes=1-2"
      4 [9, 8, 7, 6] 1 2 (by decide) (by decide) (by decide) (by decide)
      (by decide) (by decide) (by decide) (by decide)).2.1⟩

/-- C2: for a parsed range with `start ≥ n`, `end ≥ n` or `start > end`,
both backends answer 416 with `Content-Range: bytes */n` and send no
body. -/
theorem stream_range_not_satisfiable
    (base remoteDir trackPath ct r : String) (n : Nat) (file : List Nat) (s e : Int)
    (hok : escapesBase base trackPath = false)
    (hs : parseRangeStart r = some s)
    (he : parseRangeEnd r (n : Int) = some e)
    (hunsat : s ≥ (n : Int) ∨ e ≥ (n : Int) ∨ s > e) :
    ((streamLocal base trackPath (n : Int) ct (some r)).status = 416
      ∧ (streamLocal base trackPath (n : Int) ct (some r)).contentRange
          = some ("bytes */" ++ toString (n : Int))
      ∧ (streamLocal base trackPath (n : Int) ct (some r)).body = .empty
      ∧ fileBytesSent file (streamLocal base trackPath (n : Int) ct (some r)).body = [])
    ∧ ((streamRemote remoteDir trackPath (n : Int) ct (some r)).status = 416
      ∧ (streamRemote remoteDir trackPath (n : Int) ct (some r)).contentRange
          = some ("bytes */" ++ toString (n : Int))
      ∧ (streamRemote remoteDir trackPath (n : Int) ct (some r)).body = .empty
      ∧ fileBytesSent file (streamRemote remoteDir trackPath (n : Int) ct (some r)).body = []) := by
  have hguard := rangeGuard_true_of_unsat hunsat
  have hL : streamLocal base trackPath (n : Int) ct (some r)
      = { status := 416, contentType := some ct,
          contentRange := some ("bytes */" ++ toString (n : Int)),
          body := .empty } := by
    simp only [streamLocal, hok, Bool.false_eq_true, if_false, hs, he, hguard, if_true]
  have hR : streamRemote remoteDir trackPath (n : Int) ct (some r)
      = { status := 416, contentType := some ct,
          contentRange := some ("bytes */" ++ toString (n : Int)),
          body := .empty } := by
    simp only [streamRemote, hs, he, hguard, if_true]
  rw [hL, hR]
  exact ⟨⟨rfl, rfl, rfl, rfl⟩, ⟨rfl, rfl, rfl, rfl⟩⟩

/-- C2 witness: the spec's example — size 1024, `Range: bytes=2000-3000`
— yields 416 with `Content-Range: bytes */1024` on both backends. -/
theorem stream_range_not_satisfiable_witness :
    (streamLocal "/m" "t.flac" ((1024 : Nat) : Int) "audio/flac"
        (some "bytes=2000-3000")).status = 416
    ∧ (streamRemote "/r" "t.flac" ((1024 : Nat) : Int) "audio/flac"
        (some "bytes=2000-3000")).status = 416 :=
  ⟨(stream_range_not_satisfiable "/m" "/r" "t.flac" "audio/flac" "bytes=2000-3000"
      1024 [] 2000 3000 (by decide) (by decide) (by decide)
      (Or.inl (by decide))).1.1,
   (stream_range_not_satisfiable "/m" "/r" "t.flac" "audio/flac" "bytes=2000-3000"
      1024 [] 2000 3000 (by decide) (by decide) (by decide)
      (Or.inl (by decide))).2.1⟩

/-- C10 counterexample: at `Range: bytes=-500` against a 1024-byte file
— an input satisfying the claim's conditions (`parts[0]` parses to NaN,
parsed end 500 < 1024) — neither backend responds 206: the read-stream
constructor rejects the NaN `start` before the send and the handler's
catch answers 500, so the claimed 206 response is never delivered. -/
theorem stream_nan_range_206_cex :
    (streamLocal "/m" "t.flac" 1024 "audio/flac" (some "bytes=-500")).status = 500
    ∧ (streamLocal "/m" "t.flac" 1024 "audio/flac" (some "bytes=-500")).status ≠ 206
    ∧ (streamRemote "/r" "t.flac" 1024 "audio/flac" (some "bytes=-500")).status = 500
    ∧ (streamRemote "/r" "t.flac" 1024 "audio/flac" (some "bytes=-500")).status ≠ 206 := by
  exact ⟨by decide, by decide, by decide, by decide⟩

/-- C10 (amended): when the first byte position of the Range header
parses to NaN (empty or non-numeric, e.g. the suffix form `bytes=-500`)
and the parsed end is below the file size, the unsatisfiable-range guard
evaluates to false (every NaN comparison is false), so both backends
bypass the 416 branch and reach the partial-content branch, writing
`NaN` into the `Content-Range` and `Content-Length` headers of the reply
— but `fs.createReadStream` (resp. ssh2's SFTP `createReadStream`)
throws `ERR_OUT_OF_RANGE` on the NaN `start` before the send, and the
handler's catch responds 500 `Failed to stream track`: neither a 416,
nor a valid suffix window, nor the prepared 206 is ever delivered. -/
theorem stream_nan_range_bug
    (base remoteDir trackPath ct r : String) (n : Nat) (e : Int)
    (hok : escapesBase base trackPath = false)
    (hs : parseRangeStart r = none)
    (he : parseRangeEnd r (n : Int) = some e)
    (heN : e < (n : Int)) :
    rangeGuard (parseRangeStart r) (parseRangeEnd r (n : Int)) (n : Int) = false
    ∧ ((streamLocal base trackPath (n : Int) ct (some r)).status = 500
      ∧ (streamLocal base trackPath (n : Int) ct (some r)).contentRange
          = some ("bytes NaN-" ++ toString e ++ "/" ++ toString (n : Int))
      ∧ (streamLocal base trackPath (n : Int) ct (some r)).contentLength = some "NaN"
      ∧ (streamLocal base trackPath (n : Int) ct (some r)).body
          = .errorJson "Failed to stream track")
    ∧ ((streamRemote remoteDir trackPath (n : Int) ct (some r)).status = 500
      ∧ (streamRemote remoteDir trackPath (n : Int) ct (some r)).contentRange
          = some ("bytes NaN-" ++ toString e ++ "/" ++ toString (n : Int))
      ∧ (streamRemote remoteDir trackPath (n : Int) ct (some r)).contentLength = some "NaN"
      ∧ (streamRemote remoteDir trackPath (n : Int) ct (some r)).body
          = .errorJson "Failed to stream track") := by
  have hguard : rangeGuard none (some e) ((n : Nat) : Int) = false :=
    rangeGuard_nan_start_false heN
  have hinvalid : readStreamWindowValid none (some e) = false := rfl
  have hL : streamLocal base trackPath (n : Int) ct (some r)
      = { status := 500, contentType := some ct,
          contentRange := some ("bytes NaN-" ++ toString e ++ "/" ++ toString (n : Int)),
          acceptRanges := some "bytes",
          contentLength := some "NaN",
          body := .errorJson "Failed to stream track" } := by
    simp only [streamLocal, hok, Bool.false_eq_true, if_false, hs, he, hguard,
      sendWindowStream, hinvalid, jsSub, jsAdd, jsNumToString]
    rfl
  have hR : streamRemote remoteDir trackPath (n : Int) ct (some r)
      = { status := 500, contentType := some ct,
          contentRange := some ("bytes NaN-" ++ toString e ++ "/" ++ toString (n : Int)),
          acceptRanges := some "bytes",
          contentLength := some "NaN",
          body := .errorJson "Failed to stream track" } := by
    simp only [streamRemote, hs, he, hguard, Bool.false_eq_true, if_false,
      sendWindowStream, hinvalid, jsSub, jsAdd, jsNumToString]
    rfl
  refine ⟨?_, ?_, ?_⟩
  · rw [hs, he]; exact hguard
  · rw [hL]; exact ⟨rfl, rfl, rfl, rfl⟩
  · rw [hR]; exact ⟨rfl, rfl, rfl, rfl⟩

/-- C10 witness: the RFC 7233 suffix form `bytes=-500` against a
1024-byte file ends as a 500 on both backends, with `Content-Length: NaN`
left on the reply. -/
theorem stream_nan_range_bug_witness :
    ((streamLocal "/m" "t.flac" ((1024 : Nat) : Int) "audio/flac"
        (some "bytes=-500")).status = 500
      ∧ (streamLocal "/m" "t.flac" ((1024 : Nat) : Int) "audio/flac"
          (some "bytes=-500")).contentLength = some "NaN")
    ∧ ((streamRemote "/r" "t.flac" ((1024 : Nat) : Int) "audio/flac"
        (some "bytes=-500")).status = 500
      ∧ (streamRemote "/r" "t.flac" ((1024 : Nat) : Int) "audio/flac"
          (some "bytes=-500")).contentLength = some "NaN") :=
  ⟨⟨(stream_nan_range_bug "/m" "/r" "t.flac" "audio/flac" "bytes=-500" 1024 500
       (by decide) (by decide) (by decide) (by decide)).2.1.1,
    (stream_nan_range_bug "/m" "/r" "t.flac" "audio/flac" "bytes=-500" 1024 500
       (by decide) (by decide) (by decide) (by decide)).2.1.2.2.1⟩,
   ⟨(stream_nan_range_bug "/m" "/r" "t.flac" "audio/flac" "bytes=-500" 1024 500
       (by decide) (by decide) (by decide) (by decide)).2.2.1,
    (stream_nan_range_bug "/m" "/r" "t.flac" "audio/flac" "bytes=-500" 1024 500
       (by decide) (by decide) (by decide) (by decide)).2.2.2.2.1⟩⟩

/-- C9 counterexample: a stored relative path that escapes the album's
base directory is rejected with 400 by the local backend but streamed
(status 200) by the remote backend — the backends' observable behaviour
differs, so the claim of identical rejection behaviour is false. -/
theorem stream_backends_differ_on_traversal_cex :
    (streamLocal "/music/album" "../../etc/passwd" 1024 "audio/flac" none).status = 400
    ∧ (streamRemote "/seedbox/library/album" "../../etc/passwd" 1024 "audio/flac" none).status = 200
    ∧ streamLocal "/music/album" "../../etc/passwd" 1024 "audio/flac" none
        ≠ streamRemote "/seedbox/library/album" "../../etc/passwd" 1024 "audio/flac" none := by
  exact ⟨by decide, by decide, by decide⟩

/-- C9 (amended): whenever the local traversal check passes (the resolved
path stays under the base directory), the two backends produce identical
responses — same status, same `Content-Type` / `Content-Range` /
`Accept-Ranges` / `Content-Length`, same byte window — for every file
size and Range header; they differ only in that the local backend rejects
escaping paths while the remote backend performs no containment check. -/
theorem stream_backends_agree_within_base
    (base remoteDir trackPath ct : String) (fileSize : Int) (range : Option String)
    (hok : escapesBase base trackPath = false) :
    streamLocal base trackPath fileSize ct range
      = streamRemote remoteDir trackPath fileSize ct range := by
  simp only [streamLocal, streamRemote, hok, Bool.false_eq_true, if_false]

/-- C9 witness: the agreement applied to a non-escaping concrete path. -/
theorem stream_backends_agree_within_base_witness :
    streamLocal "/music/album" "01 - Track.flac" 1024 "audio/flac" (some "bytes=0-511")
      = streamRemote "/seedbox/library/album" "01 - Track.flac" 1024 "audio/flac"
          (some "bytes=0-511") :=
  stream_backends_agree_within_base "/music/album" "/seedbox/library/album"
    "01 - Track.flac" "audio/flac" 1024 (some "bytes=0-511") (by decide)
